import Mathlib

/-!
Verification of the `trackable` error-tracking facility.

The repository's `src/macros.rs` defines the call-site macro protocol
(`track!`, `track_assert!`, `track_assert_eq!`, `track_assert_ne!`,
`track_assert_some!`, `track_panic!`, `track_try_unwrap!`) and the newtype
derivation (`derive_traits_for_trackable_error_newtype!`).  The core data
model (`Location`, `History`, the `Trackable` capability, and
`TrackableError<Kind>`) lives outside the visible sources and is therefore
modelled from the specification; every such definition is marked
`Modelled from the spec:`.

Macros are embedded as functions: the compile-time `module_path!` /
`file!` / `line!` intrinsics become explicit parameters of the embedding,
and `stringify!` of an expression becomes an explicit string parameter.
Lazy invocation of the event factory is made observable by returning,
next to the updated value, the number of times the factory was invoked.
A `panic!` abort is embedded by the `Outcome.panicked` constructor, while
a value returned through the normal channel is `Outcome.returned`.
-/

/-- Modelled from the spec: `Location` (§3) — an immutable record of where a
tracking event occurred: module path, file, line number, free-text note. -/
structure Location where
  module_path : String
  file : String
  line : Nat
  message : String
deriving DecidableEq, Repr

/-- Modelled from the spec: `Location` rendering (§4.1) — one line
`at <file>:<line>`, suffixed with ` -- <message>` when the message is
non-empty. -/
def Location.render (l : Location) : String :=
  "at " ++ l.file ++ ":" ++ toString l.line ++
    (if l.message = "" then "" else " -- " ++ l.message)

/-- Modelled from the spec: `History<Event>` (§3, §4.2) — an ordered
append-only sequence of events plus an enabled/disabled recording mode. -/
structure History (ε : Type) where
  events : List ε
  enabled : Bool
deriving DecidableEq, Repr

/-- Modelled from the spec: `History::new(enabled)` (§4.2). -/
def History.new (ε : Type) (enabled : Bool) : History ε := ⟨[], enabled⟩

/-- Modelled from the spec: `History::add` (§4.2) — appends if enabled,
else discards; never fails. -/
def History.add (h : History ε) (e : ε) : History ε :=
  if h.enabled then { h with events := h.events ++ [e] } else h

/-- Modelled from the spec: `History::enable` (§4.2) — idempotent mode
toggle; does not touch existing events. -/
def History.enable (h : History ε) : History ε := { h with enabled := true }

/-- Modelled from the spec: `History::disable` (§4.2). -/
def History.disable (h : History ε) : History ε := { h with enabled := false }

/-- Modelled from the spec: the `Trackable` capability (§3, §4.3).
`history` embeds the read accessor `history()`; `withHistory` embeds the
write-back through `history_mut()`; `enable_tracking` / `disable_tracking`
are the mode toggles. -/
class Trackable (α : Type) (ε : outParam Type) where
  history : α → Option (History ε)
  withHistory : α → History ε → α
  enable_tracking : α → α
  disable_tracking : α → α

/-- Modelled from the spec: the default `track` (§4.3), instrumented with
the number of factory invocations so laziness is observable.
Step 1: no history slot — unchanged, factory not invoked.
Step 2: history disabled — unchanged, factory not invoked.
Step 3: factory invoked exactly once, event appended. -/
def Trackable.trackWithCalls [Trackable α ε] (x : α) (f : Unit → ε) :
    α × Nat :=
  match Trackable.history x with
  | none => (x, 0)
  | some h =>
    if h.enabled then (Trackable.withHistory x (h.add (f ())), 1) else (x, 0)

/-- Modelled from the spec: `track(self, make_event)` (§4.3) — the value
component of the instrumented version. -/
def Trackable.track [Trackable α ε] (x : α) (f : Unit → ε) : α :=
  (Trackable.trackWithCalls x f).1

/-- Modelled from the spec: `TrackableError<Kind>` (§3, §4.4) — a typed
kind, an optional boxed cause (modelled by its description string), and an
optional history of `Location` events. -/
structure TrackableError (κ : Type) where
  kind : κ
  cause : Option String
  history : Option (History Location)
deriving DecidableEq, Repr

/-- Modelled from the spec: `Trackable` for `TrackableError` (§4.4):
direct accessors; `enable_tracking`/`disable_tracking` flip the mode of an
existing history and leave a `None` history `None`. -/
instance : Trackable (TrackableError κ) Location where
  history e := e.history
  withHistory e h := { e with history := some h }
  enable_tracking e := { e with history := e.history.map History.enable }
  disable_tracking e := { e with history := e.history.map History.disable }

/-- Modelled from the spec: `Trackable` for `Option<T>` (§4.3 delegation):
forwards into the contained value when present, no-op when absent. -/
instance [Trackable α ε] : Trackable (Option α) ε where
  history
    | Option.none => none
    | Option.some t => Trackable.history t
  withHistory
    | Option.none, _ => Option.none
    | Option.some t, h => Option.some (Trackable.withHistory t h)
  enable_tracking o := o.map Trackable.enable_tracking
  disable_tracking o := o.map Trackable.disable_tracking

/-- `Result<T, E>` of the source, with the source's variant names. -/
inductive Result (τ : Type) (ε' : Type)
  | ok (v : τ)
  | err (e : ε')
deriving DecidableEq, Repr

/-- Modelled from the spec: `Trackable` for `Result<T, E>` (§4.3
delegation): forwards only through the `Err` arm; `Ok` is untouched. -/
instance [Trackable α ε] : Trackable (Result τ α) ε where
  history
    | Result.ok _ => none
    | Result.err e => Trackable.history e
  withHistory
    | Result.ok v, _ => Result.ok v
    | Result.err e, h => Result.err (Trackable.withHistory e h)
  enable_tracking
    | Result.ok v => Result.ok v
    | Result.err e => Result.err (Trackable.enable_tracking e)
  disable_tracking
    | Result.ok v => Result.ok v
    | Result.err e => Result.err (Trackable.disable_tracking e)

/-- Embedding of the `track!` call-site macro (src/macros.rs:38-67): the
whole `Location` construction — module path, file, line, and the (possibly
formatted) message — is wrapped in the zero-argument closure passed to
`track`.  The call count makes the laziness observable. -/
def trackAt [Trackable α Location] (x : α)
    (mp fileName : String) (line : Nat) (message : String) : α × Nat :=
  Trackable.trackWithCalls x (fun _ => Location.mk mp fileName line message)

/-- Modelled from the spec: construction from a `Kind` alone (§4.4) —
cause `None`, history `Some(empty, enabled)`.  Embeds
`ErrorKindExt::error` / `From<Kind>`. -/
def ErrorKindExt.error (k : κ) : TrackableError κ :=
  ⟨k, none, some (History.new Location true)⟩

/-- Modelled from the spec: construction from a `Kind` plus a
message/cause (§4.4) — cause `Some`, same history default.  Embeds
`ErrorKindExt::cause`. -/
def ErrorKindExt.cause (k : κ) (m : String) : TrackableError κ :=
  ⟨k, some m, some (History.new Location true)⟩

/-- Modelled from the spec: the first line of `TrackableError` rendering
(§4.4) — `<Kind> (cause; <cause-description>)` when a cause exists, else
just `<Kind>`.  The kind's debug rendering is the parameter `rk`. -/
def TrackableError.kindLine (rk : κ → String) (e : TrackableError κ) :
    String :=
  match e.cause with
  | some c => rk e.kind ++ " (cause; " ++ c ++ ")"
  | none => rk e.kind

/-- Modelled from the spec: the `HISTORY:` block (§4.4) — enumerates
each event as `  [<index>] <event-rendering>` in append order, omitted
entirely when the history is `None` or empty. -/
def historyBlock : Option (History Location) → String
  | none => ""
  | some h =>
    if h.events.isEmpty then ""
    else
      "\nHISTORY:\n" ++
        String.join (h.events.enum.map
          (fun p => "  [" ++ toString p.1 ++ "] " ++ p.2.render ++ "\n"))

/-- Modelled from the spec: full `TrackableError` rendering (§4.4). -/
def TrackableError.renderWith (rk : κ → String) (e : TrackableError κ) :
    String :=
  e.kindLine rk ++ historyBlock e.history

/-- The outcome of running one unit of execution: either a value returned
through the normal channel, or an abort (`panic!`) with its message. -/
inductive Outcome (τ : Type)
  | returned (v : τ)
  | panicked (msg : String)
deriving DecidableEq, Repr

/-- Embedding of `track_panic!` (src/macros.rs:287-306): builds the
`TrackableError` from the kind (with an optional cause message), tracks
the expansion site with an empty note via the message-less `track!`, and
hands the error to the enclosing function's `return Err(...)`. -/
def track_panic (k : κ) (msg : Option String)
    (mp fileName : String) (line : Nat) : TrackableError κ :=
  let e := match msg with
    | none => ErrorKindExt.error k
    | some m => ErrorKindExt.cause k m
  (trackAt e mp fileName line "").1

/-- Embedding of `track_assert!` (src/macros.rs:101-106), simple form:
`if !cond { track_panic!(kind, "assertion failed: `{}`", stringify!(cond)) }`.
`condText` is the `stringify!` of the condition.  The `Err` produced by
`track_panic!` flows out through the enclosing function's return
channel. -/
def track_assert (cond : Bool) (k : κ) (condText : String)
    (mp fileName : String) (line : Nat) :
    Result Unit (TrackableError κ) :=
  if !cond then
    Result.err
      (track_panic k (some ("assertion failed: `" ++ condText ++ "`"))
        mp fileName line)
  else Result.ok ()

/-- The message built by the formatted form of `track_assert!`
(src/macros.rs:110-116): `concat!("assertion failed: `{}`; ", $fmt)`
applied to `stringify!($cond)` and the caller's format arguments. -/
def track_assert_fmt_msg (condText fmtApplied : String) : String :=
  "assertion failed: `" ++ condText ++ "`; " ++ fmtApplied

/-- The message produced when `track_assert_eq!` fails
(src/macros.rs:124-133): `track_assert!` is invoked with the condition
`left == right` and the format string
``"assertion failed: `(left == right)` (left: `{:?}`, right: `{:?}`)"``
applied to the debug renderings of both operands. -/
def track_assert_eq_message (dbg : α → String) (l r : α) : String :=
  track_assert_fmt_msg "left == right"
    ("assertion failed: `(left == right)` (left: `" ++ dbg l ++
      "`, right: `" ++ dbg r ++ "`)")

/-- Embedding of `track_assert_eq!` (src/macros.rs:124-133), simple
form.  `dbg` is the operands' debug rendering (`{:?}`). -/
def track_assert_eq [DecidableEq α] (l r : α) (k : κ) (dbg : α → String)
    (mp fileName : String) (line : Nat) :
    Result Unit (TrackableError κ) :=
  if !(l = r : Bool) then
    Result.err
      (track_panic k (some (track_assert_eq_message dbg l r))
        mp fileName line)
  else Result.ok ()

/-- The message produced when `track_assert_ne!` fails
(src/macros.rs:155-164). -/
def track_assert_ne_message (dbg : α → String) (l r : α) : String :=
  track_assert_fmt_msg "left != right"
    ("assertion failed: `(left != right)` (left: `" ++ dbg l ++
      "`, right: `" ++ dbg r ++ "`)")

/-- Embedding of `track_assert_ne!` (src/macros.rs:155-164), simple
form. -/
def track_assert_ne [DecidableEq α] (l r : α) (k : κ) (dbg : α → String)
    (mp fileName : String) (line : Nat) :
    Result Unit (TrackableError κ) :=
  if !(l ≠ r : Bool) then
    Result.err
      (track_panic k (some (track_assert_ne_message dbg l r))
        mp fileName line)
  else Result.ok ()

/-- Embedding of `track_assert_some!` (src/macros.rs:213-220), simple
form: yields the contained value on `Some`, otherwise
`track_panic!(kind, "assertion failed: `{}.is_some()`", stringify!(expr))`.
`exprText` is the `stringify!` of the expression. -/
def track_assert_some (o : Option τ) (k : κ) (exprText : String)
    (mp fileName : String) (line : Nat) :
    Result τ (TrackableError κ) :=
  match o with
  | some v => Result.ok v
  | none =>
    Result.err
      (track_panic k
        (some ("assertion failed: `" ++ exprText ++ ".is_some()`"))
        mp fileName line)

/-- Embedding of `track_try_unwrap!` (src/macros.rs:331-337): tracks the
result at the call site, then either returns the `Ok` payload or aborts
the execution unit with `panic!("\nEXPRESSION: {}\nERROR: {}\n", ...)`,
where the rendered error is the tracked one.  `exprText` is the
`stringify!` of the expression; `rk` renders the kind. -/
def track_try_unwrap (r : Result τ (TrackableError κ))
    (exprText : String) (rk : κ → String)
    (mp fileName : String) (line : Nat) : Outcome τ :=
  match (trackAt r mp fileName line "").1 with
  | Result.err e =>
    Outcome.panicked
      ("\nEXPRESSION: " ++ exprText ++ "\nERROR: " ++
        e.renderWith rk ++ "\n")
  | Result.ok v => Outcome.returned v

/-- Outcome of an execution unit whose body is a `track_assert!`
statement: the macro expansion contains `return Err(...)` and no
`panic!`, so the unit always returns through the normal channel. -/
def track_assert_run (cond : Bool) (k : κ) (condText : String)
    (mp fileName : String) (line : Nat) :
    Outcome (Result Unit (TrackableError κ)) :=
  Outcome.returned (track_assert cond k condText mp fileName line)

/-- Outcome of an execution unit whose body is a `track_panic!`
statement (always `return Err(...)`, never `panic!`). -/
def track_panic_run (k : κ) (msg : Option String)
    (mp fileName : String) (line : Nat) :
    Outcome (Result Unit (TrackableError κ)) :=
  Outcome.returned (Result.err (track_panic k msg mp fileName line))

/-- Outcome of an execution unit whose body is a `track_assert_eq!`
statement. -/
def track_assert_eq_run [DecidableEq α] (l r : α) (k : κ)
    (dbg : α → String) (mp fileName : String) (line : Nat) :
    Outcome (Result Unit (TrackableError κ)) :=
  Outcome.returned (track_assert_eq l r k dbg mp fileName line)

/-- Outcome of an execution unit whose body is a `track_assert_ne!`
statement. -/
def track_assert_ne_run [DecidableEq α] (l r : α) (k : κ)
    (dbg : α → String) (mp fileName : String) (line : Nat) :
    Outcome (Result Unit (TrackableError κ)) :=
  Outcome.returned (track_assert_ne l r k dbg mp fileName line)

/-- Outcome of an execution unit whose body is a `track_assert_some!`
statement. -/
def track_assert_some_run (o : Option τ) (k : κ) (exprText : String)
    (mp fileName : String) (line : Nat) :
    Outcome (Result τ (TrackableError κ)) :=
  Outcome.returned (track_assert_some o k exprText mp fileName line)

/-- Newtype over `TrackableError<Kind>` as generated by
`derive_traits_for_trackable_error_newtype!` (src/macros.rs:377-434);
the field embeds the tuple field `.0`. -/
structure Error (κ : Type) where
  inner : TrackableError κ
deriving DecidableEq, Repr

/-- `From<TrackableError<Kind>> for Error` (src/macros.rs:417-421). -/
def Error.fromTrackableError (t : TrackableError κ) : Error κ := ⟨t⟩

/-- `From<Error> for TrackableError<Kind>` (src/macros.rs:422-426). -/
def Error.intoTrackableError (e : Error κ) : TrackableError κ := e.inner

/-- `From<Kind> for Error` (src/macros.rs:427-432): `f.error().into()`. -/
def Error.fromKind (k : κ) : Error κ := ⟨ErrorKindExt.error k⟩

/-- `Trackable` for the newtype (src/macros.rs:398-416): every operation
forwards to the inner `TrackableError`, rewrapping with `From::from`. -/
instance : Trackable (Error κ) Location where
  history e := Trackable.history e.inner
  withHistory e h := ⟨Trackable.withHistory e.inner h⟩
  enable_tracking e :=
    Error.fromTrackableError (Trackable.enable_tracking e.inner)
  disable_tracking e :=
    Error.fromTrackableError (Trackable.disable_tracking e.inner)

/-- `Display` forwarding of the newtype (src/macros.rs:385-389). -/
def Error.renderWith (rk : κ → String) (e : Error κ) : String :=
  e.inner.renderWith rk

/-- The `Failed` kind of the examples and tests (a unit struct whose
debug rendering is `"Failed"`). -/
structure Failed where
deriving DecidableEq, Repr

/-- Debug rendering of the `Failed` kind. -/
def renderFailed : Failed → String := fun _ => "Failed"

/-- `Failure` is the newtype over `TrackableError<Failed>` used by the
tests. -/
abbrev Failure := Error Failed

/-- Embedding of the test function `add_positive_f32`
(src/macros.rs:457-460).  The `f32` values and operations used by the
test (`> 0.0` comparisons and `3.0 + 2.0`) are exact in IEEE `f32` and
are modelled by `ℚ`.  `track_assert!` sits at src/macros.rs:458; its
`Err` is converted into `Failure` by the enclosing function's return. -/
def add_positive_f32 (a b : ℚ) : Result ℚ Failure :=
  match track_assert (decide (0 < a) && decide (0 < b)) Failed.mk
      "a > 0.0 && b > 0.0" "trackable::macros::test" "src/macros.rs" 458 with
  | Result.err e => Result.err (Error.fromTrackableError e)
  | Result.ok _ => Result.ok (a + b)

/-- String containment: `pat` occurs contiguously inside `s`. -/
def strContains (s pat : String) : Prop :=
  ∃ a b : String, s = a ++ (pat ++ b)

theorem strContains_of_eq {s : String} (a p b : String)
    (h : s = a ++ (p ++ b)) : strContains s p := ⟨a, b, h⟩

theorem historyBlock_singleton (l : Location) :
    historyBlock (some ⟨[l], true⟩) =
      "\nHISTORY:\n" ++ ("  [0] " ++ l.render ++ "\n") := by
  show "\nHISTORY:\n" ++
      String.join (([l].enum).map
        (fun p => "  [" ++ toString p.1 ++ "] " ++ p.2.render ++ "\n")) =
    _
  simp only [List.enum, List.enumFrom, List.map_cons, List.map_nil]
  rfl

theorem result_err_history {τ α ε : Type} [Trackable α ε] (e : α) :
    Trackable.history (Result.err e : Result τ α) = Trackable.history e :=
  rfl

theorem result_err_withHistory {τ α ε : Type} [Trackable α ε] (e : α)
    (h : History ε) :
    Trackable.withHistory (Result.err e : Result τ α) h =
      Result.err (Trackable.withHistory e h) :=
  rfl

theorem option_some_history {α ε : Type} [Trackable α ε] (t : α) :
    Trackable.history (Option.some t : Option α) = Trackable.history t :=
  rfl

theorem option_some_withHistory {α ε : Type} [Trackable α ε] (t : α)
    (h : History ε) :
    Trackable.withHistory (Option.some t : Option α) h =
      Option.some (Trackable.withHistory t h) :=
  rfl

theorem trackWithCalls_result_err {τ α ε : Type} [Trackable α ε] (e : α)
    (f : Unit → ε) :
    Trackable.trackWithCalls (Result.err e : Result τ α) f =
      (Result.err (Trackable.trackWithCalls e f).1,
        (Trackable.trackWithCalls e f).2) := by
  simp only [Trackable.trackWithCalls, result_err_history]
  cases hh : Trackable.history e with
  | none => rfl
  | some h =>
    by_cases he : h.enabled <;>
      simp [he, result_err_withHistory]

theorem trackWithCalls_option_some {α ε : Type} [Trackable α ε] (t : α)
    (f : Unit → ε) :
    Trackable.trackWithCalls (Option.some t : Option α) f =
      (Option.some (Trackable.trackWithCalls t f).1,
        (Trackable.trackWithCalls t f).2) := by
  simp only [Trackable.trackWithCalls, option_some_history]
  cases hh : Trackable.history t with
  | none => rfl
  | some h =>
    by_cases he : h.enabled <;>
      simp [he, option_some_withHistory]

/-- C1: `track` returns the value unchanged with the factory never
invoked when the history slot is absent or its mode is disabled; only
when a history exists and is enabled is the factory invoked, exactly
once, with the produced event appended.  The `track!` embedding `trackAt`
builds the `Location` only inside the factory, so on the disabled path no
location is constructed (zero invocations). -/
theorem track_factory_laziness {α ε : Type} [Trackable α ε] (x : α)
    (f : Unit → ε) :
    (Trackable.history x = none →
      Trackable.trackWithCalls x f = (x, 0)) ∧
    (∀ h : History ε, Trackable.history x = some h → h.enabled = false →
      Trackable.trackWithCalls x f = (x, 0)) ∧
    (∀ h : History ε, Trackable.history x = some h → h.enabled = true →
      Trackable.trackWithCalls x f =
        (Trackable.withHistory x (h.add (f ())), 1) ∧
      (h.add (f ())).events = h.events ++ [f ()]) ∧
    (∀ (β : Type) (i : Trackable β Location) (y : β)
        (h : History Location) (mp fileName : String) (line : Nat)
        (message : String),
      @Trackable.history β Location i y = some h → h.enabled = false →
      @trackAt β i y mp fileName line message = (y, 0)) := by
  refine ⟨?_, ?_, ?_, ?_⟩
  · intro hn
    simp [Trackable.trackWithCalls, hn]
  · intro h hh hd
    simp [Trackable.trackWithCalls, hh, hd]
  · intro h hh he
    exact ⟨by simp [Trackable.trackWithCalls, hh, he],
           by simp [History.add, he]⟩
  · intro β i y h mp fileName line message hh hd
    simp [trackAt, Trackable.trackWithCalls, hh, hd]

theorem track_factory_laziness_witness :
    Trackable.trackWithCalls
      ((⟨Failed.mk, none, none⟩ : TrackableError Failed))
      (fun _ => Location.mk "m" "f" 1 "x") =
      ((⟨Failed.mk, none, none⟩ : TrackableError Failed), 0) :=
  (track_factory_laziness _ _).1 rfl

/-- C3: tracking never changes the success/failure status of a `Result`
and leaves the `Ok` payload untouched; tracking `Ok` or `None` appends
nothing (and invokes no factory) and returns the input unchanged, while
tracking `Some t` or `Err t` has exactly the effect of tracking `t` and
rewrapping, with the same number of factory invocations. -/
theorem result_option_delegation {τ α ε : Type} [Trackable α ε]
    (f : Unit → ε) :
    (∀ v : τ, Trackable.trackWithCalls (Result.ok v : Result τ α) f =
      (Result.ok v, 0)) ∧
    (∀ e : α, Trackable.trackWithCalls (Result.err e : Result τ α) f =
      (Result.err (Trackable.trackWithCalls e f).1,
        (Trackable.trackWithCalls e f).2)) ∧
    (Trackable.trackWithCalls (Option.none : Option α) f =
      (Option.none, 0)) ∧
    (∀ t : α, Trackable.trackWithCalls (Option.some t : Option α) f =
      (Option.some (Trackable.trackWithCalls t f).1,
        (Trackable.trackWithCalls t f).2)) ∧
    (∀ r : Result τ α,
      (∃ v, Trackable.track r f = Result.ok v) ↔ ∃ v, r = Result.ok v) ∧
    (∀ v : τ, Trackable.track (Result.ok v : Result τ α) f =
      Result.ok v) := by
  refine ⟨fun v => rfl, fun e => trackWithCalls_result_err e f, rfl,
          fun t => trackWithCalls_option_some t f, ?_, fun v => rfl⟩
  intro r
  cases r with
  | ok v => exact ⟨fun _ => ⟨v, rfl⟩, fun _ => ⟨v, rfl⟩⟩
  | err e =>
    constructor
    · rintro ⟨v, hv⟩
      rw [Trackable.track, trackWithCalls_result_err e f] at hv
      cases hv
    · rintro ⟨v, hv⟩
      cases hv

/-- The error value produced by the failing run of `add_positive_f32`. -/
def addPositiveFailure : TrackableError Failed :=
  ⟨Failed.mk, some "assertion failed: `a > 0.0 && b > 0.0`",
    some ⟨[⟨"trackable::macros::test", "src/macros.rs", 458, ""⟩], true⟩⟩

/-- C2: `add_positive_f32 3 2` succeeds with `5`; `add_positive_f32 1 (-2)`
fails with an error whose rendering contains the literal text
``assertion failed: `a > 0.0 && b > 0.0`` and whose history has exactly
one entry (the failing assertion's location). -/
theorem assert_scenario :
    add_positive_f32 3 2 = Result.ok 5 ∧
    add_positive_f32 1 (-2) = Result.err (Error.mk addPositiveFailure) ∧
    Error.renderWith renderFailed (Error.mk addPositiveFailure) =
      "Failed (cause; assertion failed: `a > 0.0 && b > 0.0`)" ++
        "\nHISTORY:\n  [0] at src/macros.rs:458\n" ∧
    strContains (Error.renderWith renderFailed (Error.mk addPositiveFailure))
      "assertion failed: `a > 0.0 && b > 0.0`" ∧
    ∃ h, addPositiveFailure.history = some h ∧ h.events.length = 1 := by
  have hc : (decide ((0:ℚ) < 3) && decide ((0:ℚ) < 2)) = true := by
    norm_num
  have hc' : (decide ((0:ℚ) < 1) && decide ((0:ℚ) < -2)) = false := by
    norm_num
  refine ⟨?_, ?_, ?_, ?_, ?_⟩
  · simp only [add_positive_f32, track_assert, hc]
    norm_num
  · simp only [add_positive_f32, track_assert, hc']
    rfl
  · rfl
  · exact strContains_of_eq "Failed (cause; "
      "assertion failed: `a > 0.0 && b > 0.0`"
      ")\nHISTORY:\n  [0] at src/macros.rs:458\n" (by rfl)
  · exact ⟨_, rfl, rfl⟩

/-- Step 0 of the `track!` doc example (src/macros.rs:14-34):
`Failed.cause("something wrong")`. -/
def docStep0 : TrackableError Failed :=
  ErrorKindExt.cause Failed.mk "something wrong"

/-- Step 1: `track!(e)` at src/macros.rs:10 with an empty message. -/
def docStep1 : TrackableError Failed :=
  (trackAt docStep0 "rust_out" "src/macros.rs" 10 "").1

/-- Step 2: wrap in `Err` and `track!(e, "This is a note about this
location")` at src/macros.rs:14. -/
def docStep2 : Result Unit (TrackableError Failed) :=
  (trackAt (Result.err docStep1 : Result Unit (TrackableError Failed))
    "rust_out" "src/macros.rs" 14 "This is a note about this location").1

/-- Step 3: wrap in `Some` and `track!(e, "Hello {}", "World!")` at
src/macros.rs:18. -/
def docStep3 : Option (Result Unit (TrackableError Failed)) :=
  (trackAt (Option.some docStep2) "rust_out" "src/macros.rs" 18
    "Hello World!").1

/-- C4: the three-step tracking scenario renders as the kind line
`Failed (cause; something wrong)` followed by a `HISTORY:` block listing
the three events in append order, with the ` -- <message>` suffix only on
the two non-empty messages; and in general the `HISTORY:` block is
omitted entirely when the history is `None` or empty. -/
theorem rendering_scenario :
    (∃ e : TrackableError Failed,
      docStep3 = Option.some (Result.err e) ∧
      e.renderWith renderFailed =
        "Failed (cause; something wrong)" ++
          "\nHISTORY:\n" ++
          "  [0] at src/macros.rs:10\n" ++
          "  [1] at src/macros.rs:14 -- This is a note about this location\n" ++
          "  [2] at src/macros.rs:18 -- Hello World!\n") ∧
    (∀ (κ : Type) (rk : κ → String) (e : TrackableError κ),
      e.history = none → e.renderWith rk = e.kindLine rk) ∧
    (∀ (κ : Type) (rk : κ → String) (e : TrackableError κ)
        (h : History Location),
      e.history = some h → h.events = [] →
      e.renderWith rk = e.kindLine rk) := by
  refine ⟨⟨_, rfl, ?_⟩, ?_, ?_⟩
  · rfl
  · intro κ rk e hn
    simp [TrackableError.renderWith, historyBlock, hn]
  · intro κ rk e h hh hev
    simp [TrackableError.renderWith, historyBlock, hh, hev]

theorem rendering_scenario_witness :
    TrackableError.renderWith renderFailed
      (⟨Failed.mk, some "x", none⟩ : TrackableError Failed) =
      TrackableError.kindLine renderFailed
        (⟨Failed.mk, some "x", none⟩ : TrackableError Failed) :=
  rendering_scenario.2.1 Failed renderFailed ⟨Failed.mk, some "x", none⟩ rfl

/-- C8: on a `TrackableError` (or the derived newtype) whose history is
`None`, `enable_tracking` and `disable_tracking` keep the history `None`
and `track` returns the value unchanged — an absent tracking slot cannot
be created later. -/
theorem none_history_is_permanent {κ : Type} (e : TrackableError κ)
    (he : e.history = none) :
    (Trackable.enable_tracking e).history = none ∧
    (Trackable.disable_tracking e).history = none ∧
    (∀ f : Unit → Location, Trackable.track e f = e) ∧
    ((Trackable.enable_tracking (Error.mk e)).inner.history = none) ∧
    ((Trackable.disable_tracking (Error.mk e)).inner.history = none) ∧
    (∀ f : Unit → Location,
      Trackable.track (Error.mk e) f = Error.mk e) := by
  refine ⟨?_, ?_, ?_, ?_, ?_, ?_⟩
  · simp [Trackable.enable_tracking, he]
  · simp [Trackable.disable_tracking, he]
  · intro f
    simp [Trackable.track, Trackable.trackWithCalls, Trackable.history, he]
  · simp [Trackable.enable_tracking, Error.fromTrackableError, he]
  · simp [Trackable.disable_tracking, Error.fromTrackableError, he]
  · intro f
    simp [Trackable.track, Trackable.trackWithCalls, Trackable.history, he]

theorem none_history_is_permanent_witness :
    (Trackable.enable_tracking
      (⟨Failed.mk, none, none⟩ : TrackableError Failed)).history = none :=
  (none_history_is_permanent ⟨Failed.mk, none, none⟩ rfl).1

/-- C9: the derived newtype round-trips losslessly with the inner
`TrackableError`, and every `Trackable` operation on the newtype
(`enable_tracking`, `disable_tracking`, `history`, the write-back through
`history_mut`, and hence `track`) is exactly the operation on the inner
error, rewrapped. -/
theorem newtype_forwarding {κ : Type} :
    (∀ t : TrackableError κ,
      (Error.fromTrackableError t).intoTrackableError = t) ∧
    (∀ er : Error κ,
      Error.fromTrackableError er.intoTrackableError = er) ∧
    (∀ er : Error κ, Trackable.enable_tracking er =
      Error.fromTrackableError (Trackable.enable_tracking er.inner)) ∧
    (∀ er : Error κ, Trackable.disable_tracking er =
      Error.fromTrackableError (Trackable.disable_tracking er.inner)) ∧
    (∀ er : Error κ,
      Trackable.history er = Trackable.history er.inner) ∧
    (∀ (er : Error κ) (h : History Location),
      Trackable.withHistory er h =
        Error.fromTrackableError (Trackable.withHistory er.inner h)) ∧
    (∀ (er : Error κ) (f : Unit → Location),
      Trackable.trackWithCalls er f =
        (Error.fromTrackableError (Trackable.trackWithCalls er.inner f).1,
          (Trackable.trackWithCalls er.inner f).2)) := by
  refine ⟨fun t => rfl, fun er => rfl, fun er => rfl, fun er => rfl,
          fun er => rfl, fun er h => rfl, ?_⟩
  intro er f
  simp only [Trackable.trackWithCalls]
  cases hh : Trackable.history er.inner with
  | none => rfl
  | some h =>
    have hh2 : Trackable.history er = some h := hh
    by_cases he : h.enabled
    · simp only [hh, hh2, he, if_true, Error.fromTrackableError]
      rfl
    · simp only [hh, hh2, he, if_false, Bool.false_eq_true,
        Error.fromTrackableError]

/-- C5: `track_try_unwrap!` on an `Err` value always aborts the
execution unit, with a panic message containing the `stringify!`-ed
source expression and the full rendering (history block included) of the
tracked error; on an `Ok` value it returns the payload with no side
effects. -/
theorem unwrap_panic_scenario {κ τ : Type} (rk : κ → String)
    (exprText mp fileName : String) (line : Nat) :
    (∀ v : τ,
      track_try_unwrap (Result.ok v) exprText rk mp fileName line =
        Outcome.returned v) ∧
    (∀ e : TrackableError κ, ∃ tracked : TrackableError κ,
      (trackAt (Result.err e : Result τ (TrackableError κ))
        mp fileName line "").1 = Result.err tracked ∧
      track_try_unwrap (Result.err e : Result τ (TrackableError κ))
          exprText rk mp fileName line =
        Outcome.panicked ("\nEXPRESSION: " ++ exprText ++ "\nERROR: " ++
          tracked.renderWith rk ++ "\n") ∧
      strContains ("\nEXPRESSION: " ++ exprText ++ "\nERROR: " ++
        tracked.renderWith rk ++ "\n") exprText ∧
      strContains ("\nEXPRESSION: " ++ exprText ++ "\nERROR: " ++
        tracked.renderWith rk ++ "\n") (tracked.renderWith rk)) := by
  constructor
  · intro v
    rfl
  · intro e
    have hstep :
        (trackAt (Result.err e : Result τ (TrackableError κ))
          mp fileName line "").1 =
          Result.err ((trackAt e mp fileName line "").1) := by
      simp [trackAt, trackWithCalls_result_err]
    refine ⟨(trackAt e mp fileName line "").1, hstep, ?_, ?_, ?_⟩
    · unfold track_try_unwrap
      rw [hstep]
    · exact strContains_of_eq "\nEXPRESSION: "
        exprText
        ("\nERROR: " ++
          (TrackableError.renderWith rk (trackAt e mp fileName line "").1
            ++ "\n"))
        (by simp [String.append_assoc])
    · exact strContains_of_eq
        ("\nEXPRESSION: " ++ (exprText ++ "\nERROR: "))
        (TrackableError.renderWith rk (trackAt e mp fileName line "").1)
        "\n"
        (by simp [String.append_assoc])

theorem unwrap_panic_scenario_witness :
    track_try_unwrap (Result.ok (0 : Nat)) "expr" renderFailed
      "m" "f" 1 = Outcome.returned 0 :=
  (unwrap_panic_scenario renderFailed "expr" "m" "f" 1).1 0

/-- C6: a failing `track_assert_eq!` stores, as the error's cause, a
message containing the debug rendering of both operands together with
the literal source text `(left == right)` of the compared condition. -/
theorem eq_assert_message {κ α : Type} [DecidableEq α] (l r : α)
    (hne : l ≠ r) (k : κ) (dbg : α → String) (mp fileName : String)
    (line : Nat) :
    ∃ e : TrackableError κ,
      track_assert_eq l r k dbg mp fileName line = Result.err e ∧
      e.cause = some (track_assert_eq_message dbg l r) ∧
      strContains (track_assert_eq_message dbg l r) (dbg l) ∧
      strContains (track_assert_eq_message dbg l r) (dbg r) ∧
      strContains (track_assert_eq_message dbg l r) "(left == right)" := by
  refine ⟨track_panic k (some (track_assert_eq_message dbg l r))
    mp fileName line, ?_, ?_, ?_, ?_, ?_⟩
  · simp [track_assert_eq, hne]
  · rfl
  · exact strContains_of_eq
      ("assertion failed: `" ++ ("left == right" ++ ("`; " ++
        "assertion failed: `(left == right)` (left: `")))
      (dbg l)
      ("`, right: `" ++ (dbg r ++ "`)"))
      (by simp only [track_assert_eq_message, track_assert_fmt_msg,
        String.append_assoc])
  · exact strContains_of_eq
      ("assertion failed: `" ++ ("left == right" ++ ("`; " ++
        ("assertion failed: `(left == right)` (left: `" ++
          (dbg l ++ "`, right: `")))))
      (dbg r)
      "`)"
      (by simp only [track_assert_eq_message, track_assert_fmt_msg,
        String.append_assoc])
  · exact strContains_of_eq
      ("assertion failed: `" ++ ("left == right" ++ ("`; " ++
        "assertion failed: `")))
      "(left == right)"
      ("` (left: `" ++ (dbg l ++ ("`, right: `" ++ (dbg r ++ "`)"))))
      (by simp only [track_assert_eq_message, track_assert_fmt_msg,
        String.append_assoc]; rfl)

theorem eq_assert_message_witness :
    ∃ e : TrackableError Failed,
      track_assert_eq (0 : Nat) 1 Failed.mk
        (fun n : Nat => toString n) "m" "f" 1 = Result.err e ∧
      e.cause = some (track_assert_eq_message
        (fun n : Nat => toString n) (0 : Nat) 1) ∧
      strContains (track_assert_eq_message
        (fun n : Nat => toString n) (0 : Nat) 1)
        ((fun n : Nat => toString n) 0) ∧
      strContains (track_assert_eq_message
        (fun n : Nat => toString n) (0 : Nat) 1)
        ((fun n : Nat => toString n) 1) ∧
      strContains (track_assert_eq_message
        (fun n : Nat => toString n) (0 : Nat) 1) "(left == right)" :=
  eq_assert_message 0 1 (by decide) Failed.mk
    (fun n : Nat => toString n) "m" "f" 1

/-- C7: the assertion entry points (`track_panic!`, `track_assert!`,
`track_assert_eq!`, `track_assert_ne!`, `track_assert_some!`) always
return through the normal channel (never abort the execution unit);
`track_try_unwrap!` is the only one that aborts, and it does so exactly
on `Err` inputs. -/
theorem only_unwrap_aborts {κ τ α : Type} [DecidableEq α] :
    (∀ (cond : Bool) (k : κ) (condText mp fileName : String) (line : Nat),
      ∃ res, track_assert_run cond k condText mp fileName line =
        Outcome.returned res) ∧
    (∀ (k : κ) (msg : Option String) (mp fileName : String) (line : Nat),
      ∃ res, track_panic_run k msg mp fileName line =
        Outcome.returned res) ∧
    (∀ (l r : α) (k : κ) (dbg : α → String) (mp fileName : String)
        (line : Nat),
      ∃ res, track_assert_eq_run l r k dbg mp fileName line =
        Outcome.returned res) ∧
    (∀ (l r : α) (k : κ) (dbg : α → String) (mp fileName : String)
        (line : Nat),
      ∃ res, track_assert_ne_run l r k dbg mp fileName line =
        Outcome.returned res) ∧
    (∀ (o : Option τ) (k : κ) (exprText mp fileName : String)
        (line : Nat),
      ∃ res, track_assert_some_run o k exprText mp fileName line =
        Outcome.returned res) ∧
    (∀ (r : Result τ (TrackableError κ)) (exprText : String)
        (rk : κ → String) (mp fileName : String) (line : Nat),
      (∃ msg, track_try_unwrap r exprText rk mp fileName line =
        Outcome.panicked msg) ↔ ∃ e, r = Result.err e) := by
  refine ⟨fun cond k condText mp fileName line => ⟨_, rfl⟩,
          fun k msg mp fileName line => ⟨_, rfl⟩,
          fun l r k dbg mp fileName line => ⟨_, rfl⟩,
          fun l r k dbg mp fileName line => ⟨_, rfl⟩,
          fun o k exprText mp fileName line => ⟨_, rfl⟩, ?_⟩
  intro r exprText rk mp fileName line
  cases r with
  | ok v =>
    constructor
    · rintro ⟨msg, hmsg⟩
      rw [show track_try_unwrap (Result.ok v) exprText rk mp fileName
          line = Outcome.returned v from rfl] at hmsg
      cases hmsg
    · rintro ⟨e, he⟩
      cases he
  | err e =>
    have hstep :
        (trackAt (Result.err e : Result τ (TrackableError κ))
          mp fileName line "").1 =
          Result.err ((trackAt e mp fileName line "").1) := by
      simp [trackAt, trackWithCalls_result_err]
    exact ⟨fun _ => ⟨e, rfl⟩,
           fun _ => ⟨_, by unfold track_try_unwrap; rw [hstep]⟩⟩

/-- C10: `track_panic!(kind, message)` stores the generated message as
the error's cause (building `kind.cause(message)`), renders its first
line as `<Kind> (cause; <message>)`, and the single history event
appended at the panic site carries an empty note; the message-less form
produces an error with no cause, rendering as the bare kind. -/
theorem panic_message_becomes_cause {κ : Type} (k : κ) (m : String)
    (rk : κ → String) (mp fileName : String) (line : Nat) :
    track_panic k (some m) mp fileName line =
      ⟨k, some m, some ⟨[⟨mp, fileName, line, ""⟩], true⟩⟩ ∧
    (track_panic k (some m) mp fileName line).kindLine rk =
      rk k ++ " (cause; " ++ m ++ ")" ∧
    (track_panic k (some m) mp fileName line).renderWith rk =
      rk k ++ " (cause; " ++ m ++ ")" ++
        ("\nHISTORY:\n" ++
          ("  [0] " ++ Location.render ⟨mp, fileName, line, ""⟩ ++
            "\n")) ∧
    track_panic k none mp fileName line =
      ⟨k, none, some ⟨[⟨mp, fileName, line, ""⟩], true⟩⟩ ∧
    (track_panic k none mp fileName line).kindLine rk = rk k ∧
    (track_panic k none mp fileName line).renderWith rk =
      rk k ++
        ("\nHISTORY:\n" ++
          ("  [0] " ++ Location.render ⟨mp, fileName, line, ""⟩ ++
            "\n")) := by
  refine ⟨rfl, rfl, ?_, rfl, rfl, ?_⟩
  · show TrackableError.renderWith rk
      ⟨k, some m, some ⟨[⟨mp, fileName, line, ""⟩], true⟩⟩ = _
    simp only [TrackableError.renderWith, historyBlock_singleton]
    rfl
  · show TrackableError.renderWith rk
      ⟨k, none, some ⟨[⟨mp, fileName, line, ""⟩], true⟩⟩ = _
    simp only [TrackableError.renderWith, historyBlock_singleton]
    rfl
